import Mathlib

/-!
Shallow embedding of `spacy/pipeline/coref.py` (CoreferenceResolver and
SpanPredictor pipeline components) and proofs about it.

Python floats are modelled as real numbers where the code does softmax
arithmetic, and as rationals where only ordering and division matter
(argmax decoding, evaluation scores).  NumPy boolean matrices become
`Bool`-valued functions; `doc.spans` becomes an association list from
string keys to lists of `(start, end)` token-index pairs.
-/

set_option maxRecDepth 10000

namespace SpacyCoref

/-- Prefix test on strings, written over the character lists so that it
reduces inside the kernel (behaviourally `String.startsWith`). -/
def strStartsWith (s p : String) : Bool := p.data.isPrefixOf s.data

/-- A document, reduced to what the component reads and writes: its token
count and the `doc.spans` mapping from string keys to span groups (each
span stored as its `(start, end)` token-index pair). -/
structure Doc where
  len : Nat
  spans : List (String × List (Nat × Nat))
deriving DecidableEq

/-- A training example: the predicted-side document and the reference
(gold) document. -/
structure Example where
  predicted : Doc
  reference : Doc
deriving DecidableEq

/-- Boolean mask entry cast to a 0/1 float, as `ops.asarray2f` casts the
boolean gold matrix (coref.py line 314). -/
noncomputable def boolToReal (b : Bool) : ℝ := if b then 1 else 0

/-- Row-wise softmax, `ops.softmax(scores, axis=1)` (coref.py lines 319,
577, 578). -/
noncomputable def softmaxRow {M K : ℕ} (S : Fin M → Fin K → ℝ) (i : Fin M) (j : Fin K) : ℝ :=
  Real.exp (S i j) / ∑ k, Real.exp (S i k)

/-- Row-wise softmax of `cscores + xp.log(top_gscores)` (coref.py line
318).  In exact arithmetic `exp (s + log g)` for a 0/1 mask entry `g` is
`exp s * g` (the float semantics give `exp (log 0) = exp (-inf) = 0`), so
each row is renormalized over the gold-true columns only. -/
noncomputable def maskedSoftmaxRow {M K : ℕ} (S : Fin M → Fin K → ℝ)
    (G : Fin M → Fin K → Bool) (i : Fin M) (j : Fin K) : ℝ :=
  Real.exp (S i j) * boolToReal (G i j) / ∑ k, Real.exp (S i k) * boolToReal (G i k)

/-- The gradient `log_norm - log_marg` built by
`CoreferenceResolver.get_loss` (coref.py lines 316-320). -/
noncomputable def corefGradient {M K : ℕ} (S : Fin M → Fin K → ℝ)
    (G : Fin M → Fin K → Bool) (i : Fin M) (j : Fin K) : ℝ :=
  softmaxRow S i j - maskedSoftmaxRow S G i j

/-- The scalar `loss = float((grad**2).sum())` (coref.py line 322). -/
noncomputable def corefLoss {M K : ℕ} (S : Fin M → Fin K → ℝ)
    (G : Fin M → Fin K → Bool) : ℝ :=
  ∑ i, ∑ j, (corefGradient S G i j) ^ 2

/-- Modelled from the spec: `get_clusters_from_doc` (from `coref_util`,
not under src/) reads the gold Partition out of the document's span
mapping (spec §6: keys map to ordered sequences of spans). -/
def get_clusters_from_doc (doc : Doc) : List (List (Nat × Nat)) :=
  doc.spans.map Prod.snd

/-- Modelled from the spec: `create_gold_scores` together with
`create_head_span_idxs` (from `coref_util`, not under src/).  Spec §4.1:
mention `i` is the single-token span `(i, i+1)`; spec §4.2: the full gold
matrix has `F[i,j] = true` iff mentions `i` and `j` lie in the same gold
cluster and `j < i`. -/
def create_gold_scores (M : ℕ) (clusters : List (List (Nat × Nat))) (i j : Fin M) : Bool :=
  decide (j.val < i.val) &&
    clusters.any fun c => c.contains (i.val, i.val + 1) && c.contains (j.val, j.val + 1)

/-- `top_gscores = xp.take_along_axis(gscores, mention_idx, axis=1)`
(coref.py line 307): per-row gather of the full gold matrix by the
candidate-antecedent ids. -/
def takeAlongAxis {M K : ℕ} (gscores : Fin M → Fin M → Bool)
    (idx : Fin M → Fin K → Fin M) (i : Fin M) (k : Fin K) : Bool :=
  gscores i (idx i k)

/-- Lines 309-311 of coref.py: prepend the placeholder column, true
exactly when no gathered entry of the row is true
(`gold_placeholder = ~top_gscores.any(axis=1)`). -/
def addPlaceholder {M K : ℕ} (T : Fin M → Fin K → Bool) (i : Fin M) :
    Fin (K + 1) → Bool :=
  Fin.cons (! decide (∃ k, T i k = true)) (T i)

/-- `CoreferenceResolver.get_loss` (coref.py lines 278-324).  The function
reads only `examples[0]` — there is no batch-size check, only the TODO
comment at line 296 — so the result is `none` exactly when the list is
empty (Python raises IndexError there) and otherwise depends on the head
example alone. -/
noncomputable def corefGetLoss {M K : ℕ} (examples : List Example)
    (cscores : Fin M → Fin (K + 1) → ℝ) (mentionIdx : Fin M → Fin K → Fin M) :
    Option (ℝ × (Fin M → Fin (K + 1) → ℝ)) :=
  match examples with
  | [] => none
  | eg :: _ =>
      let clusters := get_clusters_from_doc eg.reference
      let gscores := create_gold_scores M clusters
      let G := fun i => addPlaceholder (takeAlongAxis gscores mentionIdx) i
      some (corefLoss cscores G, corefGradient cscores G)

/-- `to_categorical(targets, n_classes)` (coref.py lines 579-580): the
one-hot row for a single-label target. -/
noncomputable def toCategorical {n : ℕ} (t : Nat) (j : Fin n) : ℝ :=
  if j.val = t then 1 else 0

/-- The stacked start/end gradient of `SpanPredictor.get_loss`
(coref.py lines 577-583): `softmax - one_hot` for starts and for ends,
stacked on a final axis of size 2. -/
noncomputable def spanGradient {M n : ℕ} (startScores endScores : Fin M → Fin n → ℝ)
    (goldStarts goldEnds : Fin M → Nat) (i : Fin M) (j : Fin n) : Fin 2 → ℝ :=
  ![softmaxRow startScores i j - toCategorical (goldStarts i) j,
    softmaxRow endScores i j - toCategorical (goldEnds i) j]

/-- The scalar `loss = float((grads ** 2).sum())` of
`SpanPredictor.get_loss` (coref.py line 584). -/
noncomputable def spanLoss {M n : ℕ} (startScores endScores : Fin M → Fin n → ℝ)
    (goldStarts goldEnds : Fin M → Nat) : ℝ :=
  ∑ i, ∑ j, ∑ d, (spanGradient startScores endScores goldStarts goldEnds i j d) ^ 2

/-- The gold span boundaries gathered by `SpanPredictor.get_loss`
(coref.py lines 563-571): all `(start, end)` pairs stored in the
reference document under keys that start with the output prefix, in
storage order. -/
def goldBoundaries (outPfx : String) (doc : Doc) : List (Nat × Nat) :=
  ((doc.spans.filter fun kv => strStartsWith kv.1 outPfx).map Prod.snd).flatten

/-- `SpanPredictor.get_loss` (coref.py lines 551-585).  The assertion at
line 559 (`assert len(examples) == 1, "Only fake batching is
supported."`) is modelled by returning `none` unless the list has exactly
one element.  `span_scores` is the `[mentions, tokens, 2]` tensor; the
NumPy broadcast at lines 581-582 additionally requires the gold mention
count to equal `M` (the `getD` below totalizes that lookup). -/
noncomputable def spanGetLoss {M n : ℕ} (outPfx : String) (examples : List Example)
    (spanScores : Fin M → Fin n → Fin 2 → ℝ) :
    Option (ℝ × (Fin M → Fin n → Fin 2 → ℝ)) :=
  match examples with
  | [eg] =>
      let bounds := goldBoundaries outPfx eg.reference
      let gStarts : Fin M → Nat := fun i => (bounds.getD i.val (0, 0)).1
      let gEnds : Fin M → Nat := fun i => (bounds.getD i.val (0, 0)).2
      let startScores := fun i j => spanScores i j 0
      let endScores := fun i j => spanScores i j 1
      some (spanLoss startScores endScores gStarts gEnds,
            spanGradient startScores endScores gStarts gEnds)
  | _ => none

/-- Whether `key in doc.spans` holds. -/
def Doc.hasSpanKey (doc : Doc) (key : String) : Bool :=
  doc.spans.any fun kv => kv.1 == key

/-- Lookup of `doc.spans[key]`. -/
def Doc.getSpan (doc : Doc) (key : String) : Option (List (Nat × Nat)) :=
  (doc.spans.find? fun kv => kv.1 == key).map Prod.snd

/-- The assignment `doc.spans[key] = value`: replace the binding in place
when the key exists (dict semantics keep the original position), append
it otherwise. -/
def Doc.setSpan (doc : Doc) (key : String) (v : List (Nat × Nat)) : Doc :=
  if doc.spans.any fun kv => kv.1 == key then
    ⟨doc.len, doc.spans.map fun kv => if kv.1 == key then (kv.1, v) else kv⟩
  else
    ⟨doc.len, doc.spans ++ [(key, v)]⟩

/-- The inner loop of `CoreferenceResolver.set_annotations` over one
document (coref.py lines 166-177): write each cluster under
`prefix + "_" + str(ii)`, raising ValueError (the `true` flag) when the
key already exists — the check happens before the write, so the colliding
key is never touched.  The returned document is the state at the moment
of the error (earlier clusters of the document stay written, matching the
in-place mutation of `doc.spans`). -/
def corefAnnotateDoc (pfx : String) : Doc → Nat → List (List (Nat × Nat)) → Doc × Bool
  | doc, _, [] => (doc, false)
  | doc, ii, c :: rest =>
      if doc.hasSpanKey (pfx ++ "_" ++ toString ii) then (doc, true)
      else corefAnnotateDoc pfx (doc.setSpan (pfx ++ "_" ++ toString ii) c) (ii + 1) rest

/-- The document loop of `CoreferenceResolver.set_annotations` (coref.py
line 165): stop at the first document that raises; later documents stay
untouched. -/
def corefSetAnnotationsGo (pfx : String) :
    List (Doc × List (List (Nat × Nat))) → List Doc × Bool
  | [] => ([], false)
  | (d, cs) :: rest =>
      match corefAnnotateDoc pfx d 0 cs with
      | (d', true) => (d' :: rest.map Prod.fst, true)
      | (d', false) =>
          let r := corefSetAnnotationsGo pfx rest
          (d' :: r.1, r.2)

/-- `CoreferenceResolver.set_annotations` (coref.py lines 151-177): a
count mismatch between documents and predicted-cluster batches raises
ValueError (lines 159-164, the `true` flag) before any document is
touched. -/
def corefSetAnnotations (pfx : String) (docs : List Doc)
    (clustersByDoc : List (List (List (Nat × Nat)))) : List Doc × Bool :=
  if docs.length ≠ clustersByDoc.length then (docs, true)
  else corefSetAnnotationsGo pfx (docs.zip clustersByDoc)

/-- The inner loop of `SpanPredictor.set_annotations` over one document
(coref.py lines 487-489): write every cluster under
`output_prefix_ii`, overwriting any existing binding — there is no
collision check. -/
def spanAnnotateDoc (outPfx : String) : Doc → Nat → List (List (Nat × Nat)) → Doc
  | doc, _, [] => doc
  | doc, ii, c :: rest =>
      spanAnnotateDoc outPfx (doc.setSpan (outPfx ++ "_" ++ toString ii) c) (ii + 1) rest

/-- `SpanPredictor.set_annotations` (coref.py lines 485-489): plain
`zip(docs, clusters_by_doc)` with no length check, so the longer side is
silently truncated (documents beyond the zip stay unmodified in the
caller's list) and no error path exists. -/
def spanSetAnnotations (outPfx : String) (docs : List Doc)
    (clustersByDoc : List (List (List (Nat × Nat)))) : List Doc :=
  ((docs.zip clustersByDoc).map fun p => spanAnnotateDoc outPfx p.1 0 p.2)
    ++ docs.drop clustersByDoc.length

/-- `losses.setdefault(self.name, 0.0)` on the association-list model of
the losses dictionary. -/
noncomputable def setdefault (losses : List (String × ℝ)) (name : String) :
    List (String × ℝ) :=
  if losses.any fun kv => kv.1 == name then losses else losses ++ [(name, 0)]

/-- `losses[name] += x` (the key is present after `setdefault`). -/
noncomputable def addTo (losses : List (String × ℝ)) (name : String) (x : ℝ) :
    List (String × ℝ) :=
  losses.map fun kv => if kv.1 == name then (kv.1, kv.2 + x) else kv

/-- `CoreferenceResolver.update` (coref.py lines 179-222).  `step`
abstracts the external model's `begin_update` / `get_loss` / `backprop`
round trip for one example (the scoring network is out of scope, spec
§1); the guard at lines 203-205 returns before any model interaction when
no predicted document has tokens, so on that path the result does not
depend on `step`. -/
noncomputable def corefUpdate (name : String) (step : Example → ℝ)
    (examples : List Example) (losses : Option (List (String × ℝ))) :
    List (String × ℝ) :=
  let l := setdefault (losses.getD []) name
  if examples.any fun eg => decide (eg.predicted.len ≠ 0) then
    addTo l name (examples.map step).sum
  else l

/-- `SpanPredictor.update` (coref.py lines 491-524); the degenerate-input
guard at lines 506-508 tests the reference documents. -/
noncomputable def spanUpdate (name : String) (step : Example → ℝ)
    (examples : List Example) (losses : Option (List (String × ℝ))) :
    List (String × ℝ) :=
  let l := setdefault (losses.getD []) name
  if examples.any fun eg => decide (eg.reference.len ≠ 0) then
    addTo l name (examples.map step).sum
  else l

/-- Modelled from the spec: `doc2clusters` (from `coref_util`, not under
src/) reads the clusters stored in the document under the given prefix
(spec §6: keys follow the convention `prefix_i`). -/
def doc2clusters (doc : Doc) (pfx : String) : List (List (Nat × Nat)) :=
  (doc.spans.filter fun kv => strStartsWith kv.1 pfx).map Prod.snd

/-- The input a metric consumes: the predicted and the gold partition of
one document. -/
abbrev ClusterInfo := List (List (Nat × Nat)) × List (List (Nat × Nat))

/-- Modelled from the spec: `get_cluster_info` (from `coref_scorer`, not
under src/) packages the predicted and gold partitions of one document
for the metric. -/
def get_cluster_info (p g : List (List (Nat × Nat))) : ClusterInfo := (p, g)

/-- A per-document metric (b_cubed, muc or ceafe, from `coref_scorer`,
not under src/), abstracted as the four contributions it adds to the
running totals: precision numerator and denominator, recall numerator and
denominator (spec §4.6). -/
abbrev Metric := ClusterInfo → ℚ × ℚ × ℚ × ℚ

/-- Modelled from the spec: the `Evaluator` of `coref_scorer` (not under
src/).  Spec §4.6: it stores the chosen metric and four running totals,
`update` accumulates a document's contributions into the totals, and the
getters divide accumulated totals with a zero-denominator guard. -/
structure Evaluator where
  metric : Metric
  pn : ℚ
  pd : ℚ
  rn : ℚ
  rd : ℚ

/-- `Evaluator(metric)`: fresh evaluator with zeroed totals. -/
def Evaluator.init (m : Metric) : Evaluator := ⟨m, 0, 0, 0, 0⟩

/-- `evaluator.update(cluster_info)`: accumulate one document's metric
contributions into the four running totals. -/
def Evaluator.update (ev : Evaluator) (info : ClusterInfo) : Evaluator :=
  ⟨ev.metric,
   ev.pn + (ev.metric info).1,
   ev.pd + (ev.metric info).2.1,
   ev.rn + (ev.metric info).2.2.1,
   ev.rd + (ev.metric info).2.2.2⟩

/-- Division with the spec's guard: 0 when the denominator is 0, not a
division error. -/
def safeDiv (a b : ℚ) : ℚ := if b = 0 then 0 else a / b

/-- `evaluator.get_precision()`: accumulated precision totals divided. -/
def Evaluator.get_precision (ev : Evaluator) : ℚ := safeDiv ev.pn ev.pd

/-- `evaluator.get_recall()`: accumulated recall totals divided. -/
def Evaluator.get_recall (ev : Evaluator) : ℚ := safeDiv ev.rn ev.rd

/-- `evaluator.get_f1()`: harmonic mean of precision and recall with the
zero guard. -/
def Evaluator.get_f1 (ev : Evaluator) : ℚ :=
  safeDiv (2 * ev.get_precision * ev.get_recall) (ev.get_precision + ev.get_recall)

/-- The inner loop of `CoreferenceResolver.score` for one metric
(coref.py lines 361-368): a single evaluator updated over every example
before its totals are divided. -/
def runMetric (pfx : String) (m : Metric) (examples : List Example) : Evaluator :=
  examples.foldl
    (fun ev ex =>
      ev.update (get_cluster_info (doc2clusters ex.predicted pfx)
                                  (doc2clusters ex.reference pfx)))
    (Evaluator.init m)

/-- `statistics.mean` of a list of rationals. -/
def listMean (l : List ℚ) : ℚ := l.sum / l.length

/-- `CoreferenceResolver.score` (coref.py lines 355-381) as the triple
(f, p, r): one evaluator per metric accumulated over all examples, then
the three per-metric values averaged.  The three concrete metrics
(`b_cubed`, `muc`, `ceafe` of `coref_scorer`, not under src/) are passed
as parameters, mirroring the tuple at line 361. -/
def corefScore (pfx : String) (m1 m2 m3 : Metric) (examples : List Example) :
    ℚ × ℚ × ℚ :=
  let evs := [runMetric pfx m1 examples, runMetric pfx m2 examples,
              runMetric pfx m3 examples]
  (listMean (evs.map Evaluator.get_f1),
   listMean (evs.map Evaluator.get_precision),
   listMean (evs.map Evaluator.get_recall))

/-- The evaluator state written as explicit corpus-level sums: the four
totals are each a sum over all examples of that example's metric
contribution (the spec's micro-average: totals accumulated across the
corpus before dividing).  This follows the spec's words; the theorems
compare it against `runMetric`, which follows the code's fold. -/
def microEvaluator (pfx : String) (m : Metric) (examples : List Example) : Evaluator :=
  let infos := examples.map fun ex =>
    m (get_cluster_info (doc2clusters ex.predicted pfx) (doc2clusters ex.reference pfx))
  ⟨m, (infos.map fun t => t.1).sum, (infos.map fun t => t.2.1).sum,
      (infos.map fun t => t.2.2.1).sum, (infos.map fun t => t.2.2.2).sum⟩

/-- Tail of NumPy `argmax`: carry the best index, the best value and the
current index. -/
def argmaxGo (best : Nat) (bv : ℚ) (i : Nat) : List ℚ → Nat
  | [] => best
  | x :: xs => if bv < x then argmaxGo i x (i + 1) xs else argmaxGo best bv (i + 1) xs

/-- NumPy `argmax` over one row: index of the maximum, first occurrence
on ties. -/
def listArgmax : List ℚ → Nat
  | [] => 0
  | x :: xs => argmaxGo 0 x 1 xs

/-- One document's `span_scores` tensor of shape `[mentions, tokens, 2]`:
a row per mention, with a `(start_score, end_score)` pair per token. -/
abbrev SpanScores := List (List (ℚ × ℚ))

/-- `span_scores.size`: the total number of entries of the tensor. -/
def tensorSize (ss : SpanScores) : Nat := (ss.map fun r => 2 * r.length).sum

/-- `starts = start_scores.argmax(axis=1)` (coref.py lines 463-465). -/
def startsOf (ss : SpanScores) : List Nat :=
  ss.map fun r => listArgmax (r.map Prod.fst)

/-- `ends = end_scores.argmax(axis=1)` (coref.py lines 464-466). -/
def endsOf (ss : SpanScores) : List Nat :=
  ss.map fun r => listArgmax (r.map Prod.snd)

/-- The mention loop of `SpanPredictor.predict` (coref.py lines 475-478):
each mention of the cluster becomes `(starts[cidx], ends[cidx])` with the
running flat index `cidx`. -/
def resolveCluster (starts ends : List Nat) : Nat → List (Nat × Nat) → List (Nat × Nat)
  | _, [] => []
  | cidx, _ :: ms =>
      (starts.getD cidx 0, ends.getD cidx 0) :: resolveCluster starts ends (cidx + 1) ms

/-- The cluster loop of `SpanPredictor.predict` (coref.py lines 472-479):
clusters are rebuilt in order, the flat index running across cluster
boundaries. -/
def resolveClusters (starts ends : List Nat) :
    Nat → List (List (Nat × Nat)) → List (List (Nat × Nat))
  | _, [] => []
  | cidx, c :: cs =>
      resolveCluster starts ends cidx c
        :: resolveClusters starts ends (cidx + c.length) cs

/-- `SpanPredictor.predict` (coref.py lines 453-483).  `model` abstracts
the external scorer (`self.model.predict([doc])`, out of scope per spec
§1).  A size-zero score tensor short-circuits to an empty partition
(lines 460, 480-481); otherwise starts and ends are two independent
argmaxes and the input-prefix clusters are rebuilt mention by mention.
No `start < end` check is performed (the TODO at line 468). -/
def spanPredict (inPfx : String) (model : Doc → SpanScores) (docs : List Doc) :
    List (List (List (Nat × Nat))) :=
  docs.map fun doc =>
    if tensorSize (model doc) ≠ 0 then
      resolveClusters (startsOf (model doc)) (endsOf (model doc)) 0 (doc2clusters doc inPfx)
    else []

/-- Default document used with `List.getD`. -/
def docDefault : Doc := ⟨0, []⟩

/-- Concrete reference document: gold clusters `{(0,1), (2,3)}` stored in
the span mapping. -/
def exRefDoc : Doc := ⟨4, [("coref_clusters_0", [(0, 1), (2, 3)])]⟩

/-- Concrete example with four predicted tokens and the gold cluster of
`exRefDoc`. -/
def exExample1 : Example := ⟨⟨4, []⟩, exRefDoc⟩

/-- A second, different concrete example (distinct gold data). -/
def exExample2 : Example := ⟨⟨4, []⟩, ⟨4, [("coref_clusters_0", [(1, 2), (3, 4)])]⟩⟩

/-- Concrete all-zero score matrix of shape `[2, 2]`. -/
noncomputable def exScores0 : Fin 2 → Fin 2 → ℝ := fun _ _ => 0

/-- Concrete candidate-antecedent index matrix of shape `[2, 1]`. -/
def exIdx : Fin 2 → Fin 1 → Fin 2 := fun _ _ => 0

/-- Concrete span-score tensor of shape `[2, 2, 2]`, all zero. -/
noncomputable def exSpanScores : Fin 2 → Fin 2 → Fin 2 → ℝ := fun _ _ _ => 0

/-- Concrete gold agreement matrix of shape `[2, 2]` with a true entry in
every row. -/
def exG : Fin 2 → Fin 2 → Bool := fun _ j => j.val = 0

/-- The gold agreement matrix `CoreferenceResolver.get_loss` derives from
`exExample1` and `exIdx`. -/
def exGDerived : Fin 2 → Fin 2 → Bool := fun i =>
  addPlaceholder
    (takeAlongAxis (create_gold_scores 2 (get_clusters_from_doc exExample1.reference)) exIdx) i

/-- Concrete degenerate batch: one example whose documents both have zero
tokens. -/
def exDegenerate : List Example := [⟨⟨0, []⟩, ⟨0, []⟩⟩]

/-- Concrete losses dictionary already containing the component's key. -/
noncomputable def exLosses : List (String × ℝ) := [("coref", 2)]

/-- Concrete external scorer output for one document: one mention row
over three tokens, start scores `[0, 1, 3]` (argmax 2) and end scores
`[5, 2, 1]` (argmax 0). -/
def exModel : Doc → SpanScores := fun _ => [[(0, 5), (1, 2), (3, 1)]]

/-- Concrete external scorer returning an empty tensor. -/
def exEmptyModel : Doc → SpanScores := fun _ => []

/-- Concrete document carrying one head cluster with one mention under
the input prefix. -/
def exHeadDoc : Doc := ⟨3, [("coref_head_clusters_0", [(1, 2)])]⟩

/-- Concrete annotated document: the output key `coref_clusters_0` is
already present. -/
def exAnnotatedDoc : Doc := ⟨3, [("coref_clusters_0", [(0, 1)])]⟩

/-- Start-score slice of `exSpanScores`. -/
noncomputable def exSpanStartScores : Fin 2 → Fin 2 → ℝ := fun i j => exSpanScores i j 0

/-- End-score slice of `exSpanScores`. -/
noncomputable def exSpanEndScores : Fin 2 → Fin 2 → ℝ := fun i j => exSpanScores i j 1

/-- Gold start positions gathered from `exExample1`. -/
def exGoldStarts : Fin 2 → Nat := fun i =>
  ((goldBoundaries "coref_clusters" exExample1.reference).getD i.val (0, 0)).1

/-- Gold end positions gathered from `exExample1`. -/
def exGoldEnds : Fin 2 → Nat := fun i =>
  ((goldBoundaries "coref_clusters" exExample1.reference).getD i.val (0, 0)).2

theorem boolToReal_nonneg (b : Bool) : 0 ≤ boolToReal b := by
  cases b <;> simp [boolToReal]

theorem softmaxRow_sum {M K : ℕ} (hK : 0 < K) (S : Fin M → Fin K → ℝ) (i : Fin M) :
    ∑ j, softmaxRow S i j = 1 := by
  haveI : Nonempty (Fin K) := ⟨⟨0, hK⟩⟩
  unfold softmaxRow
  rw [← Finset.sum_div]
  exact div_self (ne_of_gt (Finset.sum_pos (fun k _ => Real.exp_pos _) Finset.univ_nonempty))

theorem maskedSoftmaxRow_sum {M K : ℕ} (S : Fin M → Fin K → ℝ)
    (G : Fin M → Fin K → Bool) (i : Fin M) (h : ∃ j, G i j = true) :
    ∑ j, maskedSoftmaxRow S G i j = 1 := by
  obtain ⟨j, hj⟩ := h
  unfold maskedSoftmaxRow
  rw [← Finset.sum_div]
  refine div_self (ne_of_gt ?_)
  refine Finset.sum_pos'
    (fun k _ => mul_nonneg (Real.exp_pos _).le (boolToReal_nonneg _))
    ⟨j, Finset.mem_univ j, ?_⟩
  simp [boolToReal, hj, Real.exp_pos]

theorem corefGradient_row_sum {M K : ℕ} (hK : 0 < K) (S : Fin M → Fin K → ℝ)
    (G : Fin M → Fin K → Bool) (i : Fin M) (h : ∃ j, G i j = true) :
    ∑ j, corefGradient S G i j = 0 := by
  unfold corefGradient
  rw [Finset.sum_sub_distrib, softmaxRow_sum hK S i, maskedSoftmaxRow_sum S G i h]
  ring

theorem addPlaceholder_row_true {M K : ℕ} (T : Fin M → Fin K → Bool) (i : Fin M) :
    ∃ j, addPlaceholder T i j = true := by
  by_cases h : ∃ k, T i k = true
  · obtain ⟨k, hk⟩ := h
    exact ⟨k.succ, by simpa [addPlaceholder] using hk⟩
  · exact ⟨0, by simp [addPlaceholder, h]⟩

/-- Claim C2: the placeholder column (column 0) of the gold agreement
matrix is true for exactly those rows in which none of the gathered
candidate-antecedent entries is gold-true, so every row of the final
matrix has at least one true entry. -/
theorem gold_placeholder_correct {M K : ℕ} (gscores : Fin M → Fin M → Bool)
    (idx : Fin M → Fin K → Fin M) (i : Fin M) :
    (addPlaceholder (takeAlongAxis gscores idx) i 0 = true
        ↔ ∀ k, takeAlongAxis gscores idx i k = false)
      ∧ ∃ j, addPlaceholder (takeAlongAxis gscores idx) i j = true := by
  refine ⟨?_, addPlaceholder_row_true _ i⟩
  simp [addPlaceholder]

/-- Claim C1: for every score matrix `S` and every gold agreement matrix
`G` with at least one true entry per row, the gradient built by
`CoreferenceResolver.get_loss` is the row-wise difference
`softmax(S) - softmax(S + log G)` (here `corefGradient`), and every row
of it sums to 0; in particular every row of the gradient matrix actually
returned by `get_loss` sums to 0, since the derived gold matrix always
has a true entry per row. -/
theorem coref_gradient_rows_sum_zero {M K : ℕ}
    (S : Fin M → Fin (K + 1) → ℝ) (G : Fin M → Fin (K + 1) → Bool)
    (hG : ∀ i, ∃ j, G i j = true) (eg : Example) (es : List Example)
    (idx : Fin M → Fin K → Fin M) (l : ℝ) (g : Fin M → Fin (K + 1) → ℝ)
    (hrun : corefGetLoss (eg :: es) S idx = some (l, g)) :
    (∀ i, ∑ j, corefGradient S G i j = 0) ∧ (∀ i, ∑ j, g i j = 0) := by
  refine ⟨fun i => corefGradient_row_sum K.succ_pos S G i (hG i), ?_⟩
  simp only [corefGetLoss, Option.some.injEq, Prod.mk.injEq] at hrun
  intro i
  rw [← hrun.2]
  exact corefGradient_row_sum K.succ_pos S _ i (addPlaceholder_row_true _ i)

/-- Witness for C1 at a concrete input. -/
theorem coref_gradient_rows_sum_zero_witness :
    (∀ i : Fin 2, ∃ j, exG i j = true)
      ∧ (∑ j, corefGradient exScores0 exG 0 j = 0)
      ∧ (∑ j, corefGradient exScores0 exGDerived 0 j = 0) := by
  have h := coref_gradient_rows_sum_zero exScores0 exG (by decide) exExample1 []
    exIdx (corefLoss exScores0 exGDerived) (corefGradient exScores0 exGDerived) rfl
  exact ⟨by decide, h.1 0, h.2 0⟩

/-- Claim C8: in both components the scalar loss returned by `get_loss`
is the sum of the squares of all entries of the returned gradient tensor,
and is therefore nonnegative. -/
theorem get_loss_sum_of_squared_gradients {M K N n : ℕ} (eg : Example)
    (es : List Example) (S : Fin M → Fin (K + 1) → ℝ)
    (idx : Fin M → Fin K → Fin M) (outPfx : String) (eg2 : Example)
    (ss : Fin N → Fin n → Fin 2 → ℝ) (l1 : ℝ) (g1 : Fin M → Fin (K + 1) → ℝ)
    (l2 : ℝ) (g2 : Fin N → Fin n → Fin 2 → ℝ)
    (h1 : corefGetLoss (eg :: es) S idx = some (l1, g1))
    (h2 : spanGetLoss outPfx [eg2] ss = some (l2, g2)) :
    (l1 = ∑ i, ∑ j, (g1 i j) ^ 2 ∧ 0 ≤ l1)
      ∧ (l2 = ∑ i, ∑ j, ∑ d, (g2 i j d) ^ 2 ∧ 0 ≤ l2) := by
  simp only [corefGetLoss, Option.some.injEq, Prod.mk.injEq] at h1
  simp only [spanGetLoss, Option.some.injEq, Prod.mk.injEq] at h2
  obtain ⟨hl1, hg1⟩ := h1
  obtain ⟨hl2, hg2⟩ := h2
  subst hl1 hg1 hl2 hg2
  refine ⟨⟨rfl, ?_⟩, ⟨rfl, ?_⟩⟩
  · exact Finset.sum_nonneg fun i _ => Finset.sum_nonneg fun j _ => sq_nonneg _
  · exact Finset.sum_nonneg fun i _ => Finset.sum_nonneg fun j _ =>
      Finset.sum_nonneg fun d _ => sq_nonneg _

/-- Witness for C8 at a concrete input. -/
theorem get_loss_sum_of_squared_gradients_witness :
    (corefLoss exScores0 exGDerived
        = ∑ i, ∑ j, (corefGradient exScores0 exGDerived i j) ^ 2
      ∧ 0 ≤ corefLoss exScores0 exGDerived)
    ∧ (spanLoss exSpanStartScores exSpanEndScores exGoldStarts exGoldEnds
        = ∑ i, ∑ j, ∑ d,
            (spanGradient exSpanStartScores exSpanEndScores exGoldStarts exGoldEnds i j d) ^ 2
      ∧ 0 ≤ spanLoss exSpanStartScores exSpanEndScores exGoldStarts exGoldEnds) :=
  get_loss_sum_of_squared_gradients exExample1 [] exScores0 exIdx "coref_clusters"
    exExample1 exSpanScores (corefLoss exScores0 exGDerived)
    (corefGradient exScores0 exGDerived)
    (spanLoss exSpanStartScores exSpanEndScores exGoldStarts exGoldEnds)
    (spanGradient exSpanStartScores exSpanEndScores exGoldStarts exGoldEnds) rfl rfl

/-- Claim C4 (amended): `SpanPredictor.get_loss` rejects any batch whose
size is not one through its explicit assertion, while
`CoreferenceResolver.get_loss` performs no batch-size check at all: on
any non-empty batch it silently processes only the first example's gold
data (the TODO at coref.py line 296). -/
theorem get_loss_batch_size_handling {M K N n : ℕ} (eg eg2 : Example)
    (es : List Example) (S : Fin M → Fin (K + 1) → ℝ)
    (idx : Fin M → Fin K → Fin M) (outPfx : String)
    (ss : Fin N → Fin n → Fin 2 → ℝ) :
    corefGetLoss (eg :: es) S idx = corefGetLoss [eg] S idx
      ∧ (corefGetLoss (eg :: es) S idx).isSome = true
      ∧ spanGetLoss outPfx (eg :: eg2 :: es) ss = none
      ∧ (spanGetLoss outPfx [eg] ss).isSome = true :=
  ⟨rfl, rfl, rfl, rfl⟩

/-- Claim C4 counterexample: called with a batch of two examples,
`CoreferenceResolver.get_loss` does not fail with an assertion — it
returns a value, the very one it returns for the first example alone. -/
theorem coref_get_loss_accepts_two_examples :
    (corefGetLoss [exExample1, exExample2] exScores0 exIdx).isSome = true
      ∧ corefGetLoss [exExample1, exExample2] exScores0 exIdx
          = corefGetLoss [exExample1] exScores0 exIdx :=
  ⟨rfl, rfl⟩

/-- Claim C7: on a batch in which every example's documents have zero
tokens (and on an empty batch), both `update` methods return the losses
accumulator unchanged apart from `setdefault` of the component's key, and
the result does not depend on the model step at all (no model update is
performed). -/
theorem update_degenerate_noop (name : String) (stepC stepS : Example → ℝ)
    (examples : List Example) (losses : Option (List (String × ℝ)))
    (h : ∀ eg ∈ examples, eg.predicted.len = 0 ∧ eg.reference.len = 0) :
    corefUpdate name stepC examples losses = setdefault (losses.getD []) name
      ∧ spanUpdate name stepS examples losses = setdefault (losses.getD []) name := by
  have hc : (examples.any fun eg => decide (eg.predicted.len ≠ 0)) = false := by
    rw [List.any_eq_false]
    intro eg hmem
    simp [(h eg hmem).1]
  have hs : (examples.any fun eg => decide (eg.reference.len ≠ 0)) = false := by
    rw [List.any_eq_false]
    intro eg hmem
    simp [(h eg hmem).2]
  constructor
  · unfold corefUpdate
    rw [hc]
    simp
  · unfold spanUpdate
    rw [hs]
    simp

/-- Witness for C7 at a concrete input. -/
theorem update_degenerate_noop_witness :
    (∀ eg ∈ exDegenerate, eg.predicted.len = 0 ∧ eg.reference.len = 0)
      ∧ corefUpdate "coref" (fun _ => 0) exDegenerate (some exLosses)
          = setdefault ((some exLosses).getD []) "coref"
      ∧ spanUpdate "span_predictor" (fun _ => 0) exDegenerate (some exLosses)
          = setdefault ((some exLosses).getD []) "span_predictor" := by
  have h1 := update_degenerate_noop "coref" (fun _ => 0) (fun _ => 0) exDegenerate
    (some exLosses) (by decide)
  have h2 := update_degenerate_noop "span_predictor" (fun _ => 0) (fun _ => 0)
    exDegenerate (some exLosses) (by decide)
  exact ⟨by decide, h1.1, h2.2⟩

theorem find?_append_of_isSome {α : Type} (l l' : List α) (p : α → Bool)
    (h : (l.find? p).isSome) : (l ++ l').find? p = l.find? p := by
  induction l with
  | nil => simp at h
  | cons a as ih =>
      by_cases ha : p a
      · simp [List.find?_cons_of_pos, ha]
      · rw [List.cons_append, List.find?_cons_of_neg _ ha, List.find?_cons_of_neg _ ha]
        rw [List.find?_cons_of_neg _ ha] at h
        exact ih h

theorem hasSpanKey_setSpan_of_absent (doc : Doc) (k' key : String)
    (v : List (Nat × Nat)) (habs : doc.hasSpanKey k' = false)
    (h : doc.hasSpanKey key = true) :
    (doc.setSpan k' v).hasSpanKey key = true := by
  unfold Doc.hasSpanKey at habs h ⊢
  unfold Doc.setSpan
  rw [if_neg (by simp [habs])]
  simp only [List.any_append]
  simp [h]

theorem getSpan_setSpan_of_absent (doc : Doc) (k' key : String)
    (v : List (Nat × Nat)) (habs : doc.hasSpanKey k' = false)
    (hpres : doc.hasSpanKey key = true) :
    (doc.setSpan k' v).getSpan key = doc.getSpan key := by
  unfold Doc.hasSpanKey at habs hpres
  unfold Doc.setSpan
  rw [if_neg (by simp [habs])]
  unfold Doc.getSpan
  have hsome : ((doc.spans.find? fun kv => kv.1 == key)).isSome := by
    rw [List.find?_isSome]
    exact List.any_eq_true.mp hpres
  rw [show (⟨doc.len, doc.spans ++ [(k', v)]⟩ : Doc).spans = doc.spans ++ [(k', v)] from rfl]
  rw [find?_append_of_isSome _ _ _ hsome]

theorem corefAnnotateDoc_preserves (pfx key : String) :
    ∀ (cs : List (List (Nat × Nat))) (doc : Doc) (ii : Nat),
      doc.hasSpanKey key = true →
      (corefAnnotateDoc pfx doc ii cs).1.getSpan key = doc.getSpan key
        ∧ (corefAnnotateDoc pfx doc ii cs).1.hasSpanKey key = true := by
  intro cs
  induction cs with
  | nil => intro doc ii h; exact ⟨rfl, h⟩
  | cons c rest ih =>
      intro doc ii h
      unfold corefAnnotateDoc
      by_cases hk : doc.hasSpanKey (pfx ++ "_" ++ toString ii) = true
      · rw [if_pos hk]
        exact ⟨rfl, h⟩
      · have habs : doc.hasSpanKey (pfx ++ "_" ++ toString ii) = false :=
          Bool.eq_false_iff.mpr hk
        rw [if_neg hk]
        have h' := hasSpanKey_setSpan_of_absent doc _ key c habs h
        have hrec := ih (doc.setSpan (pfx ++ "_" ++ toString ii) c) (ii + 1) h'
        refine ⟨?_, hrec.2⟩
        rw [hrec.1]
        exact getSpan_setSpan_of_absent doc _ key c habs h

theorem corefSetAnnotationsGo_error (pfx : String) :
    ∀ zs : List (Doc × List (List (Nat × Nat))),
      (∃ p ∈ zs, (corefAnnotateDoc pfx p.1 0 p.2).2 = true) →
      (corefSetAnnotationsGo pfx zs).2 = true := by
  intro zs
  induction zs with
  | nil => intro h; simp at h
  | cons p rest ih =>
      intro h
      obtain ⟨q, hq, herr⟩ := h
      unfold corefSetAnnotationsGo
      rcases hpe : corefAnnotateDoc pfx p.1 0 p.2 with ⟨d', e⟩
      cases e with
      | true => rfl
      | false =>
          rcases List.mem_cons.mp hq with hqp | hmem
          · rw [hqp] at herr
            rw [hpe] at herr
            simp at herr
          · simpa using ih ⟨q, hmem, herr⟩

/-- Claim C5 (amended): `CoreferenceResolver.set_annotations` aborts with
an error when the number of predicted-cluster batches differs from the
number of documents (leaving every document untouched) and when a target
span key already exists in a document's span map (the error propagates to
the whole call, and no span key already present in a document — in
particular the colliding key — is ever rewritten, since the collision
check precedes the write).  `SpanPredictor.set_annotations` performs no
such checks: its `zip` silently truncates and it overwrites existing
output keys (see the counterexample). -/
theorem coref_set_annotations_guards (pfx key : String) (docs : List Doc)
    (cbd : List (List (List (Nat × Nat)))) (doc : Doc) (ii : Nat)
    (c : List (Nat × Nat)) (cs : List (List (Nat × Nat)))
    (zs : List (Doc × List (List (Nat × Nat))))
    (h1 : docs.length ≠ cbd.length)
    (h2 : doc.hasSpanKey key = true)
    (h3 : doc.hasSpanKey (pfx ++ "_" ++ toString ii) = true)
    (h4 : ∃ p ∈ zs, (corefAnnotateDoc pfx p.1 0 p.2).2 = true) :
    corefSetAnnotations pfx docs cbd = (docs, true)
      ∧ (corefAnnotateDoc pfx doc ii cs).1.getSpan key = doc.getSpan key
      ∧ corefAnnotateDoc pfx doc ii (c :: cs) = (doc, true)
      ∧ (corefSetAnnotationsGo pfx zs).2 = true := by
  refine ⟨?_, (corefAnnotateDoc_preserves pfx key cs doc ii h2).1, ?_,
    corefSetAnnotationsGo_error pfx zs h4⟩
  · unfold corefSetAnnotations
    rw [if_pos h1]
  · unfold corefAnnotateDoc
    rw [if_pos h3]

/-- Witness for C5 at concrete inputs: two documents against one cluster
batch, and a document already holding `coref_clusters_0`. -/
theorem coref_set_annotations_guards_witness :
    corefSetAnnotations "coref_clusters" [exAnnotatedDoc, exHeadDoc] [] = ([exAnnotatedDoc, exHeadDoc], true)
      ∧ (corefAnnotateDoc "coref_clusters" exAnnotatedDoc 0 [[(0, 2)]]).1.getSpan "coref_clusters_0"
          = exAnnotatedDoc.getSpan "coref_clusters_0"
      ∧ corefAnnotateDoc "coref_clusters" exAnnotatedDoc 0 ([(0, 2)] :: [])
          = (exAnnotatedDoc, true)
      ∧ (corefSetAnnotationsGo "coref_clusters" [(exAnnotatedDoc, [[(0, 2)]])]).2 = true := by
  have h := coref_set_annotations_guards "coref_clusters" "coref_clusters_0"
    [exAnnotatedDoc, exHeadDoc] [] exAnnotatedDoc 0 [(0, 2)] [[(0, 2)]]
    [(exAnnotatedDoc, [[(0, 2)]])] (by decide) (by decide) (by decide)
    ⟨(exAnnotatedDoc, [[(0, 2)]]), by simp, by decide⟩
  exact h

/-- Claim C5 counterexample: `SpanPredictor.set_annotations` given two
documents but a single cluster batch, with the output key already present
in the first document, does not abort: it silently drops the second
document from the zip and overwrites `coref_clusters_0` (whose prior
value was `[(0, 1)]`). -/
theorem span_set_annotations_truncates_and_overwrites :
    spanSetAnnotations "coref_clusters" [exAnnotatedDoc, exHeadDoc] [[[(0, 2)]]]
        = [⟨3, [("coref_clusters_0", [(0, 2)])]⟩, exHeadDoc]
      ∧ exAnnotatedDoc.getSpan "coref_clusters_0" = some [(0, 1)] := by
  constructor <;> rfl

theorem foldl_update_eq (pfx : String) (examples : List Example) :
    ∀ ev : Evaluator,
      examples.foldl
        (fun e ex =>
          e.update (get_cluster_info (doc2clusters ex.predicted pfx)
                                     (doc2clusters ex.reference pfx))) ev
        = ⟨ev.metric,
           ev.pn + (examples.map fun ex =>
             (ev.metric (get_cluster_info (doc2clusters ex.predicted pfx)
                                          (doc2clusters ex.reference pfx))).1).sum,
           ev.pd + (examples.map fun ex =>
             (ev.metric (get_cluster_info (doc2clusters ex.predicted pfx)
                                          (doc2clusters ex.reference pfx))).2.1).sum,
           ev.rn + (examples.map fun ex =>
             (ev.metric (get_cluster_info (doc2clusters ex.predicted pfx)
                                          (doc2clusters ex.reference pfx))).2.2.1).sum,
           ev.rd + (examples.map fun ex =>
             (ev.metric (get_cluster_info (doc2clusters ex.predicted pfx)
                                          (doc2clusters ex.reference pfx))).2.2.2).sum⟩ := by
  induction examples with
  | nil => intro ev; simp
  | cons ex rest ih =>
      intro ev
      simp only [List.foldl_cons, List.map_cons, List.sum_cons]
      rw [ih]
      simp [Evaluator.update, add_assoc]

theorem runMetric_eq_micro (pfx : String) (m : Metric) (examples : List Example) :
    runMetric pfx m examples = microEvaluator pfx m examples := by
  unfold runMetric microEvaluator
  rw [foldl_update_eq]
  simp [Evaluator.init, List.map_map, Function.comp_def]

/-- Claim C3: `CoreferenceResolver.score` returns, for each of the f, p
and r fields, the arithmetic mean across the three metrics of that
metric's corpus-level value, each metric's value coming from a single
evaluator whose four totals are sums over all examples before dividing
(micro-average within a metric, macro-average across metrics). -/
theorem coref_score_micro_then_macro (pfx : String) (m1 m2 m3 : Metric)
    (examples : List Example) :
    corefScore pfx m1 m2 m3 examples
      = (((microEvaluator pfx m1 examples).get_f1
            + (microEvaluator pfx m2 examples).get_f1
            + (microEvaluator pfx m3 examples).get_f1) / 3,
         ((microEvaluator pfx m1 examples).get_precision
            + (microEvaluator pfx m2 examples).get_precision
            + (microEvaluator pfx m3 examples).get_precision) / 3,
         ((microEvaluator pfx m1 examples).get_recall
            + (microEvaluator pfx m2 examples).get_recall
            + (microEvaluator pfx m3 examples).get_recall) / 3) := by
  unfold corefScore
  rw [runMetric_eq_micro pfx m1, runMetric_eq_micro pfx m2, runMetric_eq_micro pfx m3]
  simp [listMean]
  refine ⟨by ring, by ring, by ring⟩

theorem resolveCluster_length (starts ends : List Nat) :
    ∀ (ms : List (Nat × Nat)) (cidx : Nat),
      (resolveCluster starts ends cidx ms).length = ms.length := by
  intro ms
  induction ms with
  | nil => intro cidx; rfl
  | cons x xs ih => intro cidx; simp [resolveCluster, ih]

theorem resolveCluster_append (s e : List Nat) :
    ∀ (a b : List (Nat × Nat)) (cidx : Nat),
      resolveCluster s e cidx (a ++ b)
        = resolveCluster s e cidx a ++ resolveCluster s e (cidx + a.length) b := by
  intro a
  induction a with
  | nil => intro b cidx; simp [resolveCluster]
  | cons x xs ih =>
      intro b cidx
      simp only [List.cons_append, resolveCluster, List.length_cons, List.append_eq]
      rw [ih]
      have : cidx + 1 + xs.length = cidx + (xs.length + 1) := by omega
      rw [this]

theorem resolveClusters_flatten (s e : List Nat) :
    ∀ (cs : List (List (Nat × Nat))) (cidx : Nat),
      (resolveClusters s e cidx cs).flatten = resolveCluster s e cidx cs.flatten := by
  intro cs
  induction cs with
  | nil => intro cidx; rfl
  | cons c rest ih =>
      intro cidx
      simp only [resolveClusters, List.flatten_cons]
      rw [ih, resolveCluster_append]

theorem resolveCluster_getD (s e : List Nat) :
    ∀ (ms : List (Nat × Nat)) (cidx k : Nat), k < ms.length →
      (resolveCluster s e cidx ms).getD k (0, 0)
        = (s.getD (cidx + k) 0, e.getD (cidx + k) 0) := by
  intro ms
  induction ms with
  | nil => intro cidx k hk; simp at hk
  | cons x xs ih =>
      intro cidx k hk
      cases k with
      | zero => rfl
      | succ k' =>
          simp only [resolveCluster, List.getD_cons_succ]
          rw [ih (cidx + 1) k' (by simpa using hk)]
          have : cidx + 1 + k' = cidx + (k' + 1) := by omega
          rw [this]

theorem startsOf_getD (ss : SpanScores) :
    ∀ k : Nat, (startsOf ss).getD k 0 = listArgmax ((ss.getD k []).map Prod.fst) := by
  induction ss with
  | nil => intro k; cases k <;> rfl
  | cons r rs ih =>
      intro k
      cases k with
      | zero => rfl
      | succ k' => simpa [startsOf] using ih k'

theorem endsOf_getD (ss : SpanScores) :
    ∀ k : Nat, (endsOf ss).getD k 0 = listArgmax ((ss.getD k []).map Prod.snd) := by
  induction ss with
  | nil => intro k; cases k <;> rfl
  | cons r rs ih =>
      intro k
      cases k with
      | zero => rfl
      | succ k' => simpa [endsOf] using ih k'

theorem resolveClusters_map_length (s e : List Nat) :
    ∀ (cs : List (List (Nat × Nat))) (cidx : Nat),
      (resolveClusters s e cidx cs).map List.length = cs.map List.length := by
  intro cs
  induction cs with
  | nil => intro cidx; rfl
  | cons c rest ih =>
      intro cidx
      simp only [resolveClusters, List.map_cons]
      rw [resolveCluster_length, ih]

theorem getD_map_lt {α β : Type} (f : α → β) (l : List α) :
    ∀ (i : Nat) (d : β) (d' : α), i < l.length →
      (l.map f).getD i d = f (l.getD i d') := by
  induction l with
  | nil => intro i d d' hi; simp at hi
  | cons a as ih =>
      intro i d d' hi
      cases i with
      | zero => rfl
      | succ k => simpa using ih k d d' (by simpa using hi)

/-- Claim C6: for every document, `SpanPredictor.predict` computes each
resolved span as the pair of the argmax of the mention's start-score row
and the argmax of its end-score row, the two argmaxes taken
independently; no `start < end` check is performed (the witness exhibits
an emitted span whose start lies after its end). -/
theorem span_predict_independent_argmaxes (inPfx : String) (model : Doc → SpanScores)
    (doc : Doc) (k : Nat) (h0 : tensorSize (model doc) ≠ 0)
    (hk : k < ((doc2clusters doc inPfx).flatten).length) :
    ((spanPredict inPfx model [doc]).getD 0 []).flatten.getD k (0, 0)
      = (listArgmax (((model doc).getD k []).map Prod.fst),
         listArgmax (((model doc).getD k []).map Prod.snd)) := by
  unfold spanPredict
  simp only [List.map_cons, List.map_nil, List.getD_cons_zero]
  rw [if_pos h0, resolveClusters_flatten,
    resolveCluster_getD _ _ _ 0 k hk, Nat.zero_add,
    startsOf_getD, endsOf_getD]

/-- Witness for C6 at a concrete input: the resolved span is `(2, 0)`,
whose start is after its end — nothing stops it. -/
theorem span_predict_independent_argmaxes_witness :
    tensorSize (exModel exHeadDoc) ≠ 0
      ∧ 0 < ((doc2clusters exHeadDoc "coref_head_clusters").flatten).length
      ∧ ((spanPredict "coref_head_clusters" exModel [exHeadDoc]).getD 0 []).flatten.getD 0 (0, 0)
          = (listArgmax (((exModel exHeadDoc).getD 0 []).map Prod.fst),
             listArgmax (((exModel exHeadDoc).getD 0 []).map Prod.snd))
      ∧ listArgmax (((exModel exHeadDoc).getD 0 []).map Prod.fst) = 2
      ∧ listArgmax (((exModel exHeadDoc).getD 0 []).map Prod.snd) = 0 := by
  refine ⟨by decide, by decide,
    span_predict_independent_argmaxes "coref_head_clusters" exModel exHeadDoc 0
      (by decide) (by decide), by decide, by decide⟩

/-- Claim C9: when the model output for a document is non-empty,
`SpanPredictor.predict` returns exactly as many clusters as the document
carries under the input prefix, and each output cluster has exactly as
many mentions as the corresponding input cluster, in order. -/
theorem span_predict_preserves_cluster_shape (inPfx : String)
    (model : Doc → SpanScores) (docs : List Doc) (i : Nat)
    (hi : i < docs.length)
    (h0 : tensorSize (model (docs.getD i docDefault)) ≠ 0) :
    ((spanPredict inPfx model docs).getD i []).map List.length
      = (doc2clusters (docs.getD i docDefault) inPfx).map List.length := by
  unfold spanPredict
  rw [getD_map_lt _ docs i [] docDefault hi, if_pos h0]
  exact resolveClusters_map_length _ _ _ _

/-- Witness for C9 at a concrete input. -/
theorem span_predict_preserves_cluster_shape_witness :
    (0 : Nat) < [exHeadDoc].length
      ∧ tensorSize (exModel ([exHeadDoc].getD 0 docDefault)) ≠ 0
      ∧ ((spanPredict "coref_head_clusters" exModel [exHeadDoc]).getD 0 []).map List.length
          = (doc2clusters ([exHeadDoc].getD 0 docDefault) "coref_head_clusters").map List.length :=
  ⟨by decide, by decide,
    span_predict_preserves_cluster_shape "coref_head_clusters" exModel [exHeadDoc] 0
      (by decide) (by decide)⟩

/-- Claim C10: when the model returns a size-zero score tensor for a
document, `SpanPredictor.predict` outputs an empty partition for that
document — even if the document carries non-empty input-prefix clusters —
and does not raise. -/
theorem span_predict_empty_scores_empty_partition (inPfx : String)
    (model : Doc → SpanScores) (docs : List Doc) (i : Nat)
    (hi : i < docs.length)
    (h0 : tensorSize (model (docs.getD i docDefault)) = 0) :
    (spanPredict inPfx model docs).getD i [[(1, 1)]] = [] := by
  unfold spanPredict
  rw [getD_map_lt _ docs i [[(1, 1)]] docDefault hi, if_neg (not_not_intro h0)]

/-- Witness for C10 at a concrete input: `exHeadDoc` carries a non-empty
input-prefix cluster, yet the empty tensor yields an empty partition. -/
theorem span_predict_empty_scores_empty_partition_witness :
    (0 : Nat) < [exHeadDoc].length
      ∧ tensorSize (exEmptyModel ([exHeadDoc].getD 0 docDefault)) = 0
      ∧ (doc2clusters exHeadDoc "coref_head_clusters").length ≠ 0
      ∧ (spanPredict "coref_head_clusters" exEmptyModel [exHeadDoc]).getD 0 [[(1, 1)]] = [] :=
  ⟨by decide, by decide, by decide,
    span_predict_empty_scores_empty_partition "coref_head_clusters" exEmptyModel
      [exHeadDoc] 0 (by decide) (by decide)⟩

end SpacyCoref
